import Mathlib

/-!
Verification of the PVM bytecode foundation (src/pvm_foundation.rs).

The crate exposes a bytecode container `PVMBytecode` (a vector of opcode
bytes plus a string-to-string metadata mapping) and two functions:
`disassemble`, which wraps a byte slice into a `PVMBytecode` and records
its length in the metadata, and `assemble`, which returns a copy of the
given opcode bytes.  Both return a `Result` whose error type is `String`.

Bytes (Rust `u8`) are modelled as `Fin 256`.  The metadata `HashMap`,
which in the source only ever receives the single key "length", is
modelled as an association list.  Rust `Result<T, String>` is modelled as
`Except String T`.
-/

namespace PVMFoundation

/-- A Rust u8 byte value. -/
abbrev Byte := Fin 256

/-- Simple PVM bytecode representation (struct PVMBytecode):
opcode bytes plus a string-keyed metadata mapping. -/
structure PVMBytecode where
  opcodes : List Byte
  metadata : List (String × String)
deriving Repr, DecidableEq

/-- Basic PVM disassembler (fn disassemble): inserts the decimal string of
the input length under the key "length" into a fresh metadata map and
returns the bytes unchanged as the opcode vector, always succeeding. -/
def disassemble (bytecode : List Byte) : Except String PVMBytecode :=
  let metadata : List (String × String) :=
    [("length", toString bytecode.length)]
  Except.ok { opcodes := bytecode, metadata := metadata }

/-- Basic PVM assembler (fn assemble): returns a copy of the opcode bytes,
always succeeding. -/
def assemble (opcodes : List Byte) : Except String (List Byte) :=
  Except.ok opcodes

/-- Concatenating the singleton byte spans of a list of bytes gives back
the list itself. -/
theorem join_map_singleton (l : List Byte) :
    (l.map (fun b => [b])).flatten = l := by
  induction l with
  | nil => rfl
  | cons b bs ih => simp [List.map, List.flatten, ih]

/-- Claim C1: for every byte sequence that disassemble accepts (it accepts
all of them), assembling the resulting program's opcode bytes reproduces
the original byte sequence exactly. -/
theorem disassemble_assemble_round_trip (bytes : List Byte) (p : PVMBytecode)
    (h : disassemble bytes = Except.ok p) :
    assemble p.opcodes = Except.ok bytes := by
  injection h with h1
  subst h1
  rfl

/-- Witness for C1 at the concrete input [1, 2, 3] used by the crate's own
round-trip test. -/
theorem disassemble_assemble_round_trip_witness :
    assemble (PVMBytecode.mk [1, 2, 3] [("length", "3")]).opcodes =
      Except.ok [1, 2, 3] :=
  disassemble_assemble_round_trip [1, 2, 3]
    (PVMBytecode.mk [1, 2, 3] [("length", "3")]) rfl

/-- Claim C2 (code behaviour at the failing input): disassemble succeeds on
the input [255], an opcode byte no instruction table defines, returning the
byte unchanged; indeed disassemble returns ok on every input, so it never
reports an UnknownOpcode error. -/
theorem disassemble_accepts_unknown_opcode :
    disassemble [255] = Except.ok (PVMBytecode.mk [255] [("length", "1")]) ∧
    ∀ bytes : List Byte, (disassemble bytes).isOk = true :=
  ⟨rfl, fun _ => rfl⟩

/-- Claim C3 (code behaviour at the failing input): disassemble succeeds on
the one-byte input [1] even though a 2-byte fixed-width instruction would be
truncated there; indeed disassemble returns ok on every input, so it never
reports a TruncatedInstruction error. -/
theorem disassemble_accepts_truncated_input :
    disassemble [1] = Except.ok (PVMBytecode.mk [1] [("length", "1")]) ∧
    ∀ bytes : List Byte, (disassemble bytes).isOk = true :=
  ⟨rfl, fun _ => rfl⟩

/-- Claim C4: on every successful disassembly the program's opcode vector
has the same length as the input, and the concatenation of the one-byte
raw spans of its entries, in sequence order, reconstructs the input
buffer byte-for-byte. -/
theorem disassemble_reconstruction (bytes : List Byte) (p : PVMBytecode)
    (h : disassemble bytes = Except.ok p) :
    p.opcodes.length = bytes.length ∧
    (p.opcodes.map (fun b => [b])).flatten = bytes := by
  injection h with h1
  subst h1
  exact ⟨rfl, join_map_singleton bytes⟩

/-- Witness for C4 at the concrete input [7, 8]. -/
theorem disassemble_reconstruction_witness :
    (PVMBytecode.mk [7, 8] [("length", "2")]).opcodes.length =
        ([7, 8] : List Byte).length ∧
    ((PVMBytecode.mk [7, 8] [("length", "2")]).opcodes.map
        (fun b => [b])).flatten = ([7, 8] : List Byte) :=
  disassemble_reconstruction [7, 8]
    (PVMBytecode.mk [7, 8] [("length", "2")]) rfl

/-- Claim C5: disassemble of the empty byte sequence succeeds with an empty
opcode sequence, and assemble of an empty program succeeds with the empty
byte sequence. -/
theorem empty_input_round_trip :
    disassemble [] = Except.ok (PVMBytecode.mk [] [("length", "0")]) ∧
    assemble [] = Except.ok [] :=
  ⟨rfl, rfl⟩

/-- Claim C6: assemble and disassemble are deterministic pure functions:
two calls on the same input produce identical results. -/
theorem assembly_deterministic (p : List Byte) (bytes : List Byte) :
    assemble p = assemble p ∧ disassemble bytes = disassemble bytes :=
  ⟨rfl, rfl⟩

/-- Claim C7 (code behaviour at the failing input): assemble succeeds on
the bytes [1, 255] (representing any program whatsoever, since assemble
takes a plain byte slice with no descriptor or operand information) and
copies them unchanged; indeed assemble returns ok on every input, so it
never reports an InvalidOperand error. -/
theorem assemble_never_rejects_operands :
    assemble [1, 255] = Except.ok [1, 255] ∧
    ∀ opcodes : List Byte, (assemble opcodes).isOk = true :=
  ⟨rfl, fun _ => rfl⟩

/-- Claim C8: disassemble is total on ok: for every input byte sequence it
returns ok with the input bytes as opcodes and a single length metadata
entry; it never returns an error. -/
theorem disassemble_always_ok (bytes : List Byte) :
    disassemble bytes =
      Except.ok (PVMBytecode.mk bytes [("length", toString bytes.length)]) :=
  rfl

/-- Claim C9: assemble is the total identity on byte sequences: for every
input it returns ok of an exact copy of the input and never an error. -/
theorem assemble_identity (opcodes : List Byte) :
    assemble opcodes = Except.ok opcodes :=
  rfl

/-- Claim C10: for every input, the metadata of the program returned by
disassemble is exactly one entry: the key "length" mapped to the decimal
string representation (Nat.repr) of the byte length of the input. -/
theorem disassemble_metadata_length_entry (bytes : List Byte) :
    ∃ p : PVMBytecode, disassemble bytes = Except.ok p ∧
      p.metadata = [("length", Nat.repr bytes.length)] ∧
      p.metadata.length = 1 :=
  ⟨PVMBytecode.mk bytes [("length", toString bytes.length)], rfl, rfl, rfl⟩

end PVMFoundation
